import Mathlib

/-!
# Verification of the ttok-rs diff token accounting engine

A shallow embedding of `src/main.rs` of ttok-rs.  The BPE tokenizer is an
external collaborator; it is modelled as an abstract function
`tok : String → Nat` giving the token count of a string
(`encode_with_special_tokens(s).len()`).  The external `git` process is
modelled as an abstract function from the full argument list to an outcome
(spawn failure, or an exit with captured stdout/stderr).  Standard input is a
plain string parameter; lossy UTF-8 decoding happens before any code modelled
here sees the text, so all text is already a `String`.

Machine integers: the tallies are Rust `usize` values (at most 64 bits on the
supported platforms), modelled as `Nat`; the net delta is computed in `i128`,
modelled as `Int` with an explicit two's-complement wrap `wrap_i128`.
-/

namespace Ttok

/-- `Mode` from `main.rs`: `Count`, `Diff`, or `GitDiff(Vec<String>)`. -/
inductive Mode
  | Count
  | Diff
  | GitDiff (extra_args : List String)
deriving DecidableEq, Repr

/-- The configuration assembled by the argument loop in `run`:
`encoding`, `mode`, `net_output`. -/
structure Config where
  encoding : String
  mode : Mode
  net_output : Bool
deriving DecidableEq, Repr

/-- Default configuration at the top of `run`: encoding `o200k_base`
(`DEFAULT_ENCODING`), mode `Count`, `net_output = false`. -/
def defaultConfig : Config :=
  { encoding := "o200k_base", mode := Mode.Count, net_output := false }

/-- Result of the argument scan: a finished configuration, or one of the two
short-circuiting informational flags (`-h`/`--help`, `--list`). -/
inductive ParseResult
  | config (c : Config)
  | helpRequested
  | listRequested
deriving DecidableEq, Repr

/-- The `while let Some(arg) = args.next()` loop of `run` in `main.rs`,
embedded as structural recursion over the remaining arguments with the
mutable `encoding`/`mode`/`net_output` state made explicit as `c`. -/
def parseLoop (c : Config) : List String → Except String ParseResult
  | [] => Except.ok (ParseResult.config c)
  | arg :: rest =>
    if arg = "-e" || arg = "--encoding" then
      match rest with
      | [] => Except.error "missing value for --encoding"
      | value :: rest2 => parseLoop { c with encoding := value } rest2
    else if arg = "-d" || arg = "--diff" then
      parseLoop { c with mode := Mode.Diff } rest
    else if arg = "--git" then
      Except.ok (ParseResult.config { c with mode := Mode.GitDiff rest })
    else if arg = "--net" then
      parseLoop { c with net_output := true } rest
    else if arg = "-h" || arg = "--help" then
      Except.ok ParseResult.helpRequested
    else if arg = "--list" then
      Except.ok ParseResult.listRequested
    else
      Except.error ("unrecognized argument '" ++ arg ++ "'")

/-- Argument resolution from the initial state, as in `run`. -/
def parseArgs (args : List String) : Except String ParseResult :=
  parseLoop defaultConfig args

/-- The five encodings `load_encoding` can produce.  `CoreBPE` construction
from the embedded vocabularies is modelled as infallible (the `map_err` arms
in the source only surface internal construction failures of `tiktoken_rs`). -/
inductive EncName
  | o200k_base
  | cl100k_base
  | p50k_base
  | p50k_edit
  | r50k_base
deriving DecidableEq, Repr

/-- `load_encoding` from `main.rs`: the match on the encoding name, with
`gpt2` an alias for `r50k_base` and any other name rejected. -/
def load_encoding (name : String) : Except String EncName :=
  if name = "o200k_base" then Except.ok EncName.o200k_base
  else if name = "cl100k_base" then Except.ok EncName.cl100k_base
  else if name = "p50k_base" then Except.ok EncName.p50k_base
  else if name = "p50k_edit" then Except.ok EncName.p50k_edit
  else if name = "r50k_base" || name = "gpt2" then Except.ok EncName.r50k_base
  else Except.error ("unsupported encoding '" ++ name ++ "'")

/-! ## Rust line splitting

`str::lines()` splits at `\n`, strips one trailing `\r` from every line that
was terminated by a `\n`, and produces no trailing empty line for text ending
in a terminator; a final segment without a terminator is yielded verbatim
(including a trailing `\r`, since a lone `\r` is not a terminator).

String operations are implemented by structural recursion over the
character list `String.data`, so that every definition evaluates inside the
kernel. -/

/-- `s` starts with the character sequence `pre` (Rust `str::starts_with`). -/
def chStartsWith : List Char → List Char → Bool
  | _, [] => true
  | [], _ :: _ => false
  | c :: cs, p :: ps => c = p && chStartsWith cs ps

/-- Split a character sequence at every `\n`; always at least one (possibly
empty) segment, as with Rust `split('\n')`. -/
def splitNL : List Char → List (List Char)
  | [] => [[]]
  | c :: rest =>
    if c = '\n' then [] :: splitNL rest
    else
      match splitNL rest with
      | [] => [[c]]
      | seg :: segs => (c :: seg) :: segs

/-- Strip one trailing carriage return, as `lines()` does on each
`\n`-terminated segment. -/
def stripCRch : List Char → List Char
  | [] => []
  | ['\r'] => []
  | c :: rest => c :: stripCRch rest

/-- Process the segments produced by splitting on `\n`: every segment but the
last was `\n`-terminated (strip a trailing `\r`); an empty last segment means
the text ended with a terminator and yields no line. -/
def rustLinesAux : List (List Char) → List (List Char)
  | [] => []
  | [last] => if last = [] then [] else [last]
  | seg :: rest => stripCRch seg :: rustLinesAux rest

/-- `str::lines()` from Rust, used by `diff_token_totals`. -/
def rustLines (s : String) : List String :=
  (rustLinesAux (splitNL s.data)).map String.mk

/-! ## Diff line classification and accumulation -/

/-- The `DiffLine` classification of the spec data model, factored out of the
branch structure inside the `for line in diff.lines()` loop of
`diff_token_totals`: the `+++`/`---` header check comes first, then
`strip_prefix('+')`, then `strip_prefix('-')`. -/
inductive DiffLine
  | FileHeader
  | Added (payload : String)
  | Removed (payload : String)
  | Other
deriving DecidableEq, Repr

/-- The `line.starts_with("+++") || line.starts_with("---")` guard of
`diff_token_totals`. -/
def isFileHeader (line : String) : Bool :=
  chStartsWith line.data ['+', '+', '+'] ||
    chStartsWith line.data ['-', '-', '-']

/-- Rust `str::strip_prefix(char)`: `some rest` when the string starts with
`c`, `none` otherwise. -/
def stripChar (c : Char) : List Char → Option (List Char)
  | [] => none
  | x :: rest => if x = c then some rest else none

/-- Classification of one line, in the source's branch order: the header
check first, then `strip_prefix('+')`, then `strip_prefix('-')`. -/
def classify_line (line : String) : DiffLine :=
  if isFileHeader line then DiffLine.FileHeader
  else
    match stripChar '+' line.data with
    | some rest => DiffLine.Added (String.mk rest)
    | none =>
      match stripChar '-' line.data with
      | some rest => DiffLine.Removed (String.mk rest)
      | none => DiffLine.Other

/-- The loop body of `diff_token_totals`, with the mutable `added`/`removed`
accumulators made explicit. -/
def diffTotalsGo (tok : String → Nat) :
    List String → Nat → Nat → Nat × Nat
  | [], added, removed => (added, removed)
  | line :: rest, added, removed =>
    if isFileHeader line then
      diffTotalsGo tok rest added removed
    else
      match stripChar '+' line.data with
      | some payload =>
        diffTotalsGo tok rest (added + tok (String.mk payload)) removed
      | none =>
        match stripChar '-' line.data with
        | some payload =>
          diffTotalsGo tok rest added (removed + tok (String.mk payload))
        | none => diffTotalsGo tok rest added removed

/-- `diff_token_totals` from `main.rs`: walk `diff.lines()`, tally token
counts of added and removed payloads. -/
def diff_token_totals (tok : String → Nat) (diff : String) : Nat × Nat :=
  diffTotalsGo tok (rustLines diff) 0 0

/-- Payloads of the lines a list classifies as `Added`. -/
def addedPayloads (lines : List String) : List String :=
  lines.filterMap fun l =>
    match classify_line l with
    | DiffLine.Added p => some p
    | _ => none

/-- Payloads of the lines a list classifies as `Removed`. -/
def removedPayloads (lines : List String) : List String :=
  lines.filterMap fun l =>
    match classify_line l with
    | DiffLine.Removed p => some p
    | _ => none

/-! ## Reporting -/

/-- Two's-complement wrap into the `i128` range, the width in which the
source computes `(added as i128) - (removed as i128)`. -/
def wrap_i128 (x : Int) : Int :=
  (x + 2 ^ 127) % 2 ^ 128 - 2 ^ 127

/-- The `net_total` computation of `print_diff_totals`: both `usize` tallies
widened to `i128`, then subtracted in `i128`. -/
def net_total (added removed : Nat) : Int :=
  wrap_i128 ((added : Int) - (removed : Int))

/-- `print_diff_totals` from `main.rs`, returning the single printed line. -/
def print_diff_totals (added removed : Nat) (net_output : Bool) : String :=
  if net_output then
    toString (net_total added removed)
  else
    toString added ++ " " ++ toString removed

/-! ## Git subprocess -/

/-- Outcome of spawning the external `git` process: the spawn itself can fail
(`command.output()` returns `Err`), or the process runs to an exit status with
captured stdout and stderr (already lossily decoded to text). -/
inductive GitOutcome
  | spawnFailure (msg : String)
  | exited (success : Bool) (stdout : String) (stderr : String)

/-- The fixed leading arguments of the git invocation in `run_git_diff`:
`command.arg("diff").arg("--no-ext-diff").arg("--unified=0")`. -/
def gitFixedArgs : List String := ["diff", "--no-ext-diff", "--unified=0"]

/-- Unicode `White_Space`, the predicate of Rust's `str::trim`. -/
def rustIsWhitespace (c : Char) : Bool :=
  (0x9 ≤ c.val && c.val ≤ 0xd) || c.val = 0x20 || c.val = 0x85 ||
    c.val = 0xa0 || c.val = 0x1680 || (0x2000 ≤ c.val && c.val ≤ 0x200a) ||
    c.val = 0x2028 || c.val = 0x2029 || c.val = 0x202f || c.val = 0x205f ||
    c.val = 0x3000

/-- Rust `str::trim`: drop Unicode whitespace from both ends. -/
def rustTrim (s : String) : String :=
  String.mk
    (((s.data.dropWhile rustIsWhitespace).reverse.dropWhile
        rustIsWhitespace).reverse)

/-- `run_git_diff` from `main.rs`: invoke git on the fixed arguments followed
by `args`; a spawn failure maps to `failed to run git diff: <msg>`, a nonzero
exit maps to the trimmed stderr, success yields the captured stdout. -/
def run_git_diff (git : List String → GitOutcome) (args : List String) :
    Except String String :=
  match git (gitFixedArgs ++ args) with
  | GitOutcome.spawnFailure msg =>
      Except.error ("failed to run git diff: " ++ msg)
  | GitOutcome.exited success stdout stderr =>
      if success then Except.ok stdout
      else Except.error (rustTrim stderr)

/-! ## Top-level `run` -/

/-- What a successful run produces on stdout: the printed result line, or one
of the informational screens (whose exact text is presentation plumbing). -/
inductive RunOutput
  | printed (lines : List String)
  | helpShown
  | listShown
deriving DecidableEq, Repr

/-- `run` from `main.rs` after the argument loop: load the encoding, then
branch on the mode.  `tokFor` gives each loaded encoding's token-count
function; `git` is the external process; `stdin` is the fully buffered,
lossily decoded standard input.  The order of operations mirrors the source:
`load_encoding` is called before the `Count`/`net_output` validation and
before stdin is consumed. -/
def run (tokFor : EncName → String → Nat) (git : List String → GitOutcome)
    (stdin : String) (args : List String) : Except String RunOutput :=
  match parseArgs args with
  | Except.error e => Except.error e
  | Except.ok ParseResult.helpRequested => Except.ok RunOutput.helpShown
  | Except.ok ParseResult.listRequested => Except.ok RunOutput.listShown
  | Except.ok (ParseResult.config c) =>
    match load_encoding c.encoding with
    | Except.error e => Except.error e
    | Except.ok enc =>
      match c.mode with
      | Mode.Count =>
        if c.net_output then
          Except.error "--net can only be used with --diff or --git"
        else
          Except.ok (RunOutput.printed [toString (tokFor enc stdin)])
      | Mode.Diff =>
        let t := diff_token_totals (tokFor enc) stdin
        Except.ok (RunOutput.printed [print_diff_totals t.1 t.2 c.net_output])
      | Mode.GitDiff diff_args =>
        match run_git_diff git diff_args with
        | Except.error e => Except.error e
        | Except.ok diff_text =>
          let t := diff_token_totals (tokFor enc) diff_text
          Except.ok
            (RunOutput.printed [print_diff_totals t.1 t.2 c.net_output])

end Ttok

namespace Ttok

set_option maxRecDepth 20000

/-! ## Supporting lemmas -/

/-- Characterization of the accumulator loop: starting from tallies
`added`/`removed` it adds the token counts of the `Added`-classified payloads
to the first component and of the `Removed`-classified payloads to the
second. -/
theorem diffTotalsGo_eq_sums (tok : String → Nat) (lines : List String) :
    ∀ added removed : Nat,
      diffTotalsGo tok lines added removed =
        (added + ((addedPayloads lines).map tok).sum,
         removed + ((removedPayloads lines).map tok).sum) := by
  induction lines with
  | nil => intro a r; simp [diffTotalsGo, addedPayloads, removedPayloads]
  | cons line rest ih =>
    intro a r
    by_cases hif : isFileHeader line
    · simp [diffTotalsGo, hif, addedPayloads, removedPayloads,
        List.filterMap_cons, classify_line, ih]
    · rcases hs : stripChar '+' line.data with _ | payload
      · rcases hs2 : stripChar '-' line.data with _ | payload
        · simp [diffTotalsGo, hif, hs, hs2, addedPayloads, removedPayloads,
            List.filterMap_cons, classify_line, ih]
        · simp [diffTotalsGo, hif, hs, hs2, addedPayloads, removedPayloads,
            List.filterMap_cons, classify_line, ih]
          omega
      · simp [diffTotalsGo, hif, hs, addedPayloads, removedPayloads,
          List.filterMap_cons, classify_line, ih]
        omega

/-- `diff_token_totals` computes exactly the two payload token sums. -/
theorem diff_token_totals_eq_sums (tok : String → Nat) (diff : String) :
    diff_token_totals tok diff =
      (((addedPayloads (rustLines diff)).map tok).sum,
       ((removedPayloads (rustLines diff)).map tok).sum) := by
  have h := diffTotalsGo_eq_sums tok (rustLines diff) 0 0
  simpa [diff_token_totals] using h

/-- The `i128` subtraction of the two widened `usize` tallies is exact:
the wrap is the identity whenever both tallies fit in 64 bits. -/
theorem net_total_eq_sub (added removed : Nat)
    (ha : added < 2 ^ 64) (hr : removed < 2 ^ 64) :
    net_total added removed = (added : Int) - (removed : Int) := by
  have ha2 : (added : Int) < 2 ^ 64 := by exact_mod_cast ha
  have hr2 : (removed : Int) < 2 ^ 64 := by exact_mod_cast hr
  have h0 : (0 : Int) ≤ (added : Int) := Int.ofNat_nonneg added
  have h1 : (0 : Int) ≤ (removed : Int) := Int.ofNat_nonneg removed
  simp only [net_total, wrap_i128]
  omega

/-- Equal tallies always give a zero net delta. -/
theorem net_total_self (t : Nat) : net_total t t = 0 := by
  simp only [net_total, wrap_i128]
  omega

end Ttok

namespace Ttok

set_option maxRecDepth 20000

/-! ## Claim theorems -/

/-- C1: for every tokenizer and diff text, `diff_token_totals` returns the
pair (sum of token counts of `Added` payloads, sum of token counts of
`Removed` payloads), with `+++`/`---` lines excluded by classification, and
pair mode prints exactly these two totals. -/
theorem C1_diff_totals_are_payload_sums (tok : String → Nat) (diff : String) :
    diff_token_totals tok diff =
      (((addedPayloads (rustLines diff)).map tok).sum,
       ((removedPayloads (rustLines diff)).map tok).sum) ∧
    print_diff_totals (diff_token_totals tok diff).1
        (diff_token_totals tok diff).2 false =
      toString ((addedPayloads (rustLines diff)).map tok).sum ++ " " ++
        toString ((removedPayloads (rustLines diff)).map tok).sum := by
  have h := diff_token_totals_eq_sums tok diff
  refine ⟨h, ?_⟩
  rw [h]
  rfl

/-- C3: every line classifies to exactly one `DiffLine` constructor
(classification is a total function); a line is `FileHeader` iff it starts
with `+++` or `---`; and since the header check precedes the `+`/`-` checks,
a header line never contributes to either tally. -/
theorem C3_file_header_classification (line : String) :
    (classify_line line = DiffLine.FileHeader ↔
      (chStartsWith line.data ['+', '+', '+']
        || chStartsWith line.data ['-', '-', '-']) = true) ∧
    ((chStartsWith line.data ['+', '+', '+']
        || chStartsWith line.data ['-', '-', '-']) = true →
      ∀ (tok : String → Nat) (a r : Nat),
        diffTotalsGo tok [line] a r = (a, r)) := by
  constructor
  · constructor
    · intro h
      by_contra hn
      have hif : isFileHeader line = false := by
        simp only [isFileHeader]
        exact Bool.not_eq_true _ ▸ hn
      rcases hs : stripChar '+' line.data with _ | p
      · rcases hs2 : stripChar '-' line.data with _ | p
        · simp [classify_line, hif, hs, hs2] at h
        · simp [classify_line, hif, hs, hs2] at h
      · simp [classify_line, hif, hs] at h
    · intro h
      have hif : isFileHeader line = true := by simpa [isFileHeader] using h
      simp [classify_line, hif]
  · intro h tok a r
    have hif : isFileHeader line = true := by simpa [isFileHeader] using h
    simp [diffTotalsGo, hif]

/-- Witness for C3 at the concrete header line `--- a/f`. -/
theorem C3_file_header_classification_witness :
    classify_line "--- a/f" = DiffLine.FileHeader ∧
    diffTotalsGo (fun s => s.length) ["--- a/f"] 3 4 = (3, 4) := by
  have h := C3_file_header_classification "--- a/f"
  exact ⟨h.1.mpr (by decide), h.2 (by decide) (fun s => s.length) 3 4⟩

/-- C6: a bare `+` (resp. `-`) is classified `Added` (resp. `Removed`) with
empty payload, and contributes exactly the tokenizer's count of the empty
string to the corresponding tally, through the same accumulation path. -/
theorem C6_bare_sign_lines (tok : String → Nat) :
    classify_line "+" = DiffLine.Added "" ∧
    classify_line "-" = DiffLine.Removed "" ∧
    diff_token_totals tok "+" = (tok "", 0) ∧
    diff_token_totals tok "-" = (0, tok "") := by
  refine ⟨by decide, by decide, ?_, ?_⟩
  · have h : diff_token_totals tok "+" = (0 + tok "", 0) := rfl
    simpa using h
  · have h : diff_token_totals tok "-" = (0, 0 + tok "") := rfl
    simpa using h

/-- C8: a diff whose classified added payloads are exactly `[p]` and whose
classified removed payloads are exactly `[p]` yields equal tallies and a zero
net delta. -/
theorem C8_symmetric_diff_cancels (tok : String → Nat) (diff p : String)
    (ha : addedPayloads (rustLines diff) = [p])
    (hr : removedPayloads (rustLines diff) = [p]) :
    (diff_token_totals tok diff).1 = (diff_token_totals tok diff).2 ∧
    net_total (diff_token_totals tok diff).1
      (diff_token_totals tok diff).2 = 0 := by
  have h := diff_token_totals_eq_sums tok diff
  rw [ha, hr] at h
  exact ⟨by rw [h], by rw [h]; exact net_total_self _⟩

/-- Witness for C8 at the diff `+hello\n-hello` with the length tokenizer. -/
theorem C8_symmetric_diff_cancels_witness :
    addedPayloads (rustLines "+hello\n-hello") = ["hello"] ∧
    removedPayloads (rustLines "+hello\n-hello") = ["hello"] ∧
    (diff_token_totals String.length "+hello\n-hello").1
      = (diff_token_totals String.length "+hello\n-hello").2 ∧
    net_total (diff_token_totals String.length "+hello\n-hello").1
      (diff_token_totals String.length "+hello\n-hello").2 = 0 := by
  have h := C8_symmetric_diff_cancels String.length "+hello\n-hello" "hello"
    (by decide) (by decide)
  exact ⟨by decide, by decide, h.1, h.2⟩

/-- C9: the empty diff yields the tally `(0, 0)` for every tokenizer; pair
mode prints `0 0` and net mode prints `0`. -/
theorem C9_empty_diff (tok : String → Nat) :
    diff_token_totals tok "" = (0, 0) ∧
    print_diff_totals 0 0 false = "0 0" ∧
    print_diff_totals 0 0 true = "0" := by
  refine ⟨rfl, rfl, ?_⟩
  rw [show print_diff_totals 0 0 true = toString (net_total 0 0) from rfl,
    net_total_self 0]
  rfl

/-- C10: `-e` consumes the next argument unconditionally as the encoding
name, even when it looks like a flag: `["-e", "--net"]` resolves to encoding
`--net` with `net_output` still false. -/
theorem C10_encoding_eats_next_argument :
    parseArgs ["-e", "--net"] =
      Except.ok (ParseResult.config
        { encoding := "--net", mode := Mode.Count, net_output := false }) :=
  rfl

end Ttok

namespace Ttok

set_option maxRecDepth 20000

/-- C2 counterexample: with arguments `["-e", "bogus", "--net"]` the resolved
configuration is `Count` with `net_output = true`, yet `run` fails with the
encoding error, not with the `--net` validation message: the encoding is
loaded before the `--net`/`Count` validation runs. -/
theorem C2_counterexample_encoding_error_first :
    parseArgs ["-e", "bogus", "--net"]
      = Except.ok (ParseResult.config
          { encoding := "bogus", mode := Mode.Count, net_output := true }) ∧
    run (fun _ _ => 0) (fun _ => GitOutcome.exited true "" "") ""
        ["-e", "bogus", "--net"]
      = Except.error "unsupported encoding 'bogus'" ∧
    ("unsupported encoding 'bogus'" : String)
      ≠ "--net can only be used with --diff or --git" :=
  ⟨rfl, rfl, by decide⟩

/-- C2 amended: when the arguments resolve to mode `Count` with
`net_output = true` and the encoding loads successfully, `run` fails with
exactly `--net can only be used with --diff or --git`; the validation runs
after parsing and after the encoding load, but before stdin is read and
before any subprocess runs (the result is independent of both). -/
theorem C2_net_requires_diff_mode (tokFor : EncName → String → Nat)
    (git git2 : List String → GitOutcome) (stdin stdin2 : String)
    (args : List String) (c : Config) (enc : EncName)
    (hp : parseArgs args = Except.ok (ParseResult.config c))
    (hm : c.mode = Mode.Count) (hn : c.net_output = true)
    (he : load_encoding c.encoding = Except.ok enc) :
    run tokFor git stdin args
      = Except.error "--net can only be used with --diff or --git" ∧
    run tokFor git stdin args = run tokFor git2 stdin2 args := by
  constructor
  · simp [run, hp, he, hm, hn]
  · simp [run, hp, he, hm, hn]

/-- Witness for the amended C2 at `["--net"]` with the default encoding. -/
theorem C2_net_requires_diff_mode_witness :
    parseArgs ["--net"]
      = Except.ok (ParseResult.config
          { encoding := "o200k_base", mode := Mode.Count,
            net_output := true }) ∧
    load_encoding "o200k_base" = Except.ok EncName.o200k_base ∧
    run (fun _ _ => 0) (fun _ => GitOutcome.exited true "" "") "" ["--net"]
      = Except.error "--net can only be used with --diff or --git" := by
  have h := C2_net_requires_diff_mode (fun _ _ => 0)
    (fun _ => GitOutcome.exited true "" "")
    (fun _ => GitOutcome.exited true "" "") "" "" ["--net"]
    { encoding := "o200k_base", mode := Mode.Count, net_output := true }
    EncName.o200k_base rfl rfl rfl rfl
  exact ⟨rfl, rfl, h.1⟩

/-- C4: once `--git` is scanned the loop stops and every remaining argument,
flag-like or not, lands verbatim and in order in `GitDiff`'s `extra_args`
(the rest of the configuration is untouched); `run_git_diff` consults the
external tool only at `diff --no-ext-diff --unified=0` followed by exactly
those arguments, and returns its captured stdout on success. -/
theorem C4_git_terminal_and_invocation (c : Config) (rest : List String) :
    parseLoop c ("--git" :: rest)
      = Except.ok (ParseResult.config { c with mode := Mode.GitDiff rest }) ∧
    (∀ (git git2 : List String → GitOutcome) (extra : List String),
      git (gitFixedArgs ++ extra) = git2 (gitFixedArgs ++ extra) →
      run_git_diff git extra = run_git_diff git2 extra) ∧
    (∀ (git : List String → GitOutcome) (extra : List String)
        (out err : String),
      git (gitFixedArgs ++ extra) = GitOutcome.exited true out err →
      run_git_diff git extra = Except.ok out) := by
  refine ⟨?_, ?_, ?_⟩
  · unfold parseLoop
    rw [if_neg (by decide), if_neg (by decide), if_pos rfl]
  · intro git git2 extra h
    simp [run_git_diff, h]
  · intro git extra out err h
    simp [run_git_diff, h]

/-- Witness for C4: `--git --net --` keeps `--net` and `--` verbatim as tool
arguments, and a successful invocation returns the captured stdout. -/
theorem C4_git_terminal_and_invocation_witness :
    parseLoop defaultConfig ["--git", "--net", "--"]
      = Except.ok (ParseResult.config
          { encoding := "o200k_base", mode := Mode.GitDiff ["--net", "--"],
            net_output := false }) ∧
    run_git_diff (fun _ => GitOutcome.exited true "OUT" "") ["--net", "--"]
      = Except.ok "OUT" := by
  have h := C4_git_terminal_and_invocation defaultConfig ["--net", "--"]
  exact ⟨h.1, h.2.2 (fun _ => GitOutcome.exited true "OUT" "")
    ["--net", "--"] "OUT" "" rfl⟩

/-- C5: the net delta is the exact signed difference of the tallies —
negative iff removed exceeds added, zero iff they are equal — because the
`i128` wrap is the identity whenever both `usize` tallies fit in 64 bits
(64 bits of headroom beyond the tally width), and net mode prints it. -/
theorem C5_net_is_exact_signed_difference (added removed : Nat)
    (ha : added < 2 ^ 64) (hr : removed < 2 ^ 64) :
    net_total added removed = (added : Int) - (removed : Int) ∧
    (net_total added removed < 0 ↔ added < removed) ∧
    (net_total added removed = 0 ↔ added = removed) ∧
    print_diff_totals added removed true
      = toString ((added : Int) - (removed : Int)) := by
  have key := net_total_eq_sub added removed ha hr
  refine ⟨key, ?_, ?_, ?_⟩
  · rw [key]; omega
  · rw [key]; omega
  · rw [show print_diff_totals added removed true
      = toString (net_total added removed) from rfl, key]

/-- Witness for C5 at tallies 3 and 5: the net delta is the negative exact
difference. -/
theorem C5_net_is_exact_signed_difference_witness :
    (3 : Nat) < 2 ^ 64 ∧ (5 : Nat) < 2 ^ 64 ∧ net_total 3 5 = -2 := by
  have h := C5_net_is_exact_signed_difference 3 5 (by norm_num) (by norm_num)
  refine ⟨by norm_num, by norm_num, ?_⟩
  rw [h.1]
  decide

/-- C7: when the spawned diff process exits with nonzero status,
`run_git_diff` fails with the trimmed captured stderr, for every captured
stdout — the partial stdout never reaches the result. -/
theorem C7_nonzero_exit_maps_to_trimmed_stderr
    (git : List String → GitOutcome) (args : List String) (out err : String)
    (h : git (gitFixedArgs ++ args) = GitOutcome.exited false out err) :
    run_git_diff git args = Except.error (rustTrim err) := by
  simp [run_git_diff, h]

/-- Witness for C7: a failing invocation with nonempty partial stdout yields
the trimmed stderr as the error. -/
theorem C7_nonzero_exit_maps_to_trimmed_stderr_witness :
    run_git_diff (fun _ => GitOutcome.exited false "partial" "  boom\n") []
      = Except.error "boom" := by
  have h := C7_nonzero_exit_maps_to_trimmed_stderr
    (fun _ => GitOutcome.exited false "partial" "  boom\n") []
    "partial" "  boom\n" rfl
  have ht : rustTrim "  boom\n" = "boom" := by decide
  rw [ht] at h
  exact h

end Ttok
